import Mathlib

/-!
Shallow embedding of the expense-tracker core (the `classes/` implementation:
`expense.py`, `budget.py`, `data_manager.py`) together with proofs of the
specification's claims about it.

Modelling conventions:
* Python `str` is modelled as `List Char` (`Str` below), so that the string
  operations the code uses (`strip`, `lower`, equality) are structurally
  recursive and kernel-evaluable.
* Python `float` amounts are modelled as `ℚ` (all amounts in the claims are
  exact small decimals, where Python float arithmetic agrees with ℚ).
* `datetime.now()` is modelled by explicit parameters: a timestamp `now`
  for `created_date`, a value `gen` for the generated identifier, and a
  calendar date `(y, m, d)` for period computations.
* Python's `raise ValueError(...)` is modelled by `Except TrackerError`;
  the two distinct `ValueError` messages of the source correspond to the
  two constructors of `TrackerError`.
* Python truthiness of an optional identifier string (`budget_id or
  self._generate_id()`) is modelled by `resolveId`.
-/

/-- Python `str`, modelled as its list of characters. -/
abbrev Str := List Char

/-- Python `str.lower()` (the code only applies it to ASCII tokens). -/
def strToLower (s : Str) : Str := s.map Char.toLower

/-- Python `str.strip()`: remove leading and trailing whitespace. -/
def trimStr (s : Str) : Str :=
  ((s.dropWhile Char.isWhitespace).reverse.dropWhile Char.isWhitespace).reverse

/-- Errors raised by the entity constructors.  `validation` models
`ValueError("... amount must be positive")`, `invalidPeriod` models
`ValueError(f"Invalid period '{period}' ...")` carrying the offending
period token. -/
inductive TrackerError where
  | validation (msg : Str)
  | invalidPeriod (period : Str)
deriving DecidableEq

/-- Python `given or generated`: `None` and `""` are falsy, so both are
replaced by the generated identifier. -/
def resolveId (given : Option Str) (generated : Str) : Str :=
  match given with
  | none => generated
  | some s => if s = [] then generated else s

/-- The `Expense` entity of `classes/expense.py` (fields set by
`Expense.__init__`). -/
structure Expense where
  name : Str
  category : Str
  amount : ℚ
  created_date : Str
  expense_id : Str
deriving DecidableEq

/-- `Expense.__init__` of `classes/expense.py`: rejects `amount <= 0`,
trims the name, trims and lower-cases the category, stamps `created_date`
with the current time (`now`) and resolves the identifier (`gen` is the
value `_generate_id()` would produce). -/
def Expense.make (now gen : Str) (name category : Str) (amount : ℚ)
    (expense_id : Option Str) : Except TrackerError Expense :=
  if amount ≤ 0 then
    .error (.validation "Expense amount must be positive".toList)
  else
    .ok { name := trimStr name
          category := strToLower (trimStr category)
          amount := amount
          created_date := now
          expense_id := resolveId expense_id gen }

/-- The record produced by `Expense.to_dict` (all five keys are always
present in a serialized expense). -/
structure ExpenseDict where
  id : Str
  name : Str
  category : Str
  amount : ℚ
  created_date : Str
deriving DecidableEq

/-- `Expense.to_dict` of `classes/expense.py`. -/
def Expense.to_dict (e : Expense) : ExpenseDict :=
  { id := e.expense_id
    name := e.name
    category := e.category
    amount := e.amount
    created_date := e.created_date }

/-- `Expense.from_dict` of `classes/expense.py`: rebuilds the expense
through the constructor (re-validating the amount) and then overwrites
`created_date` with the stored one. -/
def Expense.from_dict (now gen : Str) (d : ExpenseDict) :
    Except TrackerError Expense :=
  (Expense.make now gen d.name d.category d.amount (some d.id)).map
    (fun e => { e with created_date := d.created_date })

/-- The `BudgetPeriod` enumeration of `classes/budget.py`. -/
inductive BudgetPeriod where
  | daily
  | weekly
  | monthly
  | yearly
deriving DecidableEq

/-- The `value` of each enumeration member. -/
def BudgetPeriod.value : BudgetPeriod → Str
  | .daily => "daily".toList
  | .weekly => "weekly".toList
  | .monthly => "monthly".toList
  | .yearly => "yearly".toList

/-- Lookup of `BudgetPeriod(s)` by enum value: succeeds exactly on the four
canonical tokens. -/
def parseBudgetPeriod (s : Str) : Option BudgetPeriod :=
  if s = "daily".toList then some .daily
  else if s = "weekly".toList then some .weekly
  else if s = "monthly".toList then some .monthly
  else if s = "yearly".toList then some .yearly
  else none

/-- The `Budget` entity of `classes/budget.py`. -/
structure Budget where
  category : Str
  amount : ℚ
  period : BudgetPeriod
  created_date : Str
  budget_id : Str
  is_active : Bool
deriving DecidableEq

/-- `Budget.__init__` of `classes/budget.py`: rejects `amount <= 0` first,
then parses `BudgetPeriod(period.lower())` (raising the invalid-period
error when the token is not one of the enum values), then stores the
trimmed lower-cased category and resolves the identifier. -/
def Budget.make (now gen : Str) (category : Str) (amount : ℚ)
    (period : Str) (budget_id : Option Str) (is_active : Bool) :
    Except TrackerError Budget :=
  if amount ≤ 0 then
    .error (.validation "Budget amount must be positive".toList)
  else
    match parseBudgetPeriod (strToLower period) with
    | none => .error (.invalidPeriod period)
    | some p =>
        .ok { category := strToLower (trimStr category)
              amount := amount
              period := p
              created_date := now
              budget_id := resolveId budget_id gen
              is_active := is_active }

/-- The record produced by `Budget.to_dict` (all six keys always present). -/
structure BudgetDict where
  id : Str
  category : Str
  amount : ℚ
  period : Str
  created_date : Str
  is_active : Bool
deriving DecidableEq

/-- `Budget.to_dict` of `classes/budget.py`. -/
def Budget.to_dict (b : Budget) : BudgetDict :=
  { id := b.budget_id
    category := b.category
    amount := b.amount
    period := b.period.value
    created_date := b.created_date
    is_active := b.is_active }

/-- `Budget.from_dict` of `classes/budget.py`: rebuilds through the
constructor (re-validating amount and period) and then overwrites
`created_date` with the stored one. -/
def Budget.from_dict (now gen : Str) (d : BudgetDict) :
    Except TrackerError Budget :=
  (Budget.make now gen d.category d.amount d.period (some d.id)
      d.is_active).map
    (fun b => { b with created_date := d.created_date })

/-- `Budget.calculate_remaining_budget`: `max(0, self.amount - spent_amount)`. -/
def Budget.calculate_remaining_budget (b : Budget) (spent_amount : ℚ) : ℚ :=
  max 0 (b.amount - spent_amount)

/-- `Budget.calculate_usage_percentage`: `0.0` when the amount is zero,
otherwise `min(100.0, spent / amount * 100)`. -/
def Budget.calculate_usage_percentage (b : Budget) (spent_amount : ℚ) : ℚ :=
  if b.amount = 0 then 0
  else min 100 (spent_amount / b.amount * 100)

/-- `Budget.is_over_budget`: `spent_amount > self.amount`. -/
def Budget.is_over_budget (b : Budget) (spent_amount : ℚ) : Bool :=
  spent_amount > b.amount

/-- The structured content of the message returned by
`Budget.get_status_message`: the tier, and the numbers interpolated into
the message text for that tier. -/
inductive BudgetStatus where
  | exceeded (over : ℚ)
  | critical (percentage remaining : ℚ)
  | warning (percentage remaining : ℚ)
  | halfUsed (percentage remaining : ℚ)
  | onTrack (percentage remaining : ℚ)
deriving DecidableEq

/-- `Budget.get_status_message` of `classes/budget.py`, with the formatted
string abstracted to the tier plus the interpolated numbers.  The exceeded
tier interpolates `abs(remaining)` where
`remaining = calculate_remaining_budget(spent)`. -/
def Budget.get_status_message (b : Budget) (spent_amount : ℚ) : BudgetStatus :=
  let percentage := b.calculate_usage_percentage spent_amount
  let remaining := b.calculate_remaining_budget spent_amount
  if percentage ≥ 100 then .exceeded |remaining|
  else if percentage ≥ 90 then .critical percentage remaining
  else if percentage ≥ 80 then .warning percentage remaining
  else if percentage ≥ 50 then .halfUsed percentage remaining
  else .onTrack percentage remaining

/-- `Budget.get_daily_amount` of `classes/budget.py`. -/
def Budget.get_daily_amount (b : Budget) : ℚ :=
  match b.period with
  | .daily => b.amount
  | .weekly => b.amount / 7
  | .monthly => b.amount / 30
  | .yearly => b.amount / 365

/-! ### Calendar model

`Budget.get_remaining_days_in_period` relies on Python `datetime` calendar
arithmetic.  The proleptic Gregorian calendar of `datetime` is embedded
below: `toOrdinal` is `date.toordinal()` (day 1 = 0001-01-01) and
`pyWeekday` is `date.weekday()` (Monday = 0; 0001-01-01 is a Monday).
The subtraction `(last_day - now).days` in the source is exact ordinal
difference because both datetimes carry the same time of day. -/

/-- Gregorian leap year, as implemented by `datetime`. -/
def isLeapYear (y : ℕ) : Prop := y % 4 = 0 ∧ (y % 100 ≠ 0 ∨ y % 400 = 0)

instance (y : ℕ) : Decidable (isLeapYear y) := by
  unfold isLeapYear; infer_instance

/-- Length of month `m` (1–12), given the leap flag of the year. -/
def daysInMonthAux (leap : Bool) (m : ℕ) : ℕ :=
  if m = 2 then (if leap then 29 else 28)
  else if m = 4 ∨ m = 6 ∨ m = 9 ∨ m = 11 then 30
  else if 1 ≤ m ∧ m ≤ 12 then 31
  else 0

/-- Length of month `m` of year `y`. -/
def daysInMonth (y m : ℕ) : ℕ := daysInMonthAux (decide (isLeapYear y)) m

/-- Days in the months strictly before month `m`, given the leap flag. -/
def daysBeforeMonthAux (leap : Bool) : ℕ → ℕ
  | 0 => 0
  | m + 1 => daysBeforeMonthAux leap m + daysInMonthAux leap m

/-- Days of year `y` in the months strictly before month `m`. -/
def daysBeforeMonth (y m : ℕ) : ℕ :=
  daysBeforeMonthAux (decide (isLeapYear y)) m

/-- One-based day-of-year index of `(y, m, d)`. -/
def dayOfYear (y m d : ℕ) : ℕ := daysBeforeMonth y m + d

/-- Number of days of year `y`. -/
def daysInYear (y : ℕ) : ℕ := if isLeapYear y then 366 else 365

/-- Days in the years strictly before year `y` (proleptic Gregorian). -/
def daysBeforeYear (y : ℕ) : ℕ :=
  365 * (y - 1) + (y - 1) / 4 - (y - 1) / 100 + (y - 1) / 400

/-- Python `date(y, m, d).toordinal()`. -/
def toOrdinal (y m d : ℕ) : ℕ := daysBeforeYear y + dayOfYear y m d

/-- Python `date(y, m, d).weekday()`: ISO weekday index, Monday = 0. -/
def pyWeekday (y m d : ℕ) : ℕ := (toOrdinal y m d + 6) % 7

/-- `Budget.get_remaining_days_in_period` of `classes/budget.py`, with
`datetime.now()` replaced by the explicit current date `(y, m, d)`:
daily returns 1; weekly returns `7 - now.weekday()`; monthly computes the
first day of the next month (rolling December over to January), steps back
one day, and returns the day difference plus one; yearly does the same
with the first day of the next year. -/
def Budget.get_remaining_days_in_period (b : Budget) (y m d : ℕ) : ℤ :=
  match b.period with
  | .daily => 1
  | .weekly => 7 - (pyWeekday y m d : ℤ)
  | .monthly =>
      let next : ℕ :=
        if m = 12 then toOrdinal (y + 1) 1 1 else toOrdinal y (m + 1) 1
      ((next : ℤ) - 1 - (toOrdinal y m d : ℤ)) + 1
  | .yearly =>
      ((toOrdinal (y + 1) 1 1 : ℤ) - 1 - (toOrdinal y m d : ℤ)) + 1

/-! ### Aggregation and lookup (`classes/data_manager.py`)

The persistence layer is abstracted to the in-memory list of entities it
would load; the filtering/summing/lookup logic is embedded as written. -/

/-- `DataManager.get_expenses_by_category`: the expenses whose category
matches case-insensitively, in storage order. -/
def get_expenses_by_category (expenses : List Expense) (category : Str) :
    List Expense :=
  expenses.filter (fun e => strToLower e.category == strToLower category)

/-- `DataManager.get_total_spending`: Python `if category:` selects the
filtered list only for a truthy (non-`None`, non-empty) category argument,
then sums the amounts. -/
def get_total_spending (expenses : List Expense) (category : Option Str) :
    ℚ :=
  let chosen :=
    match category with
    | some c =>
        if c = [] then expenses else get_expenses_by_category expenses c
    | none => expenses
  (chosen.map Expense.amount).sum

/-- `DataManager.get_budget_by_category`: scan storage order, return the
first budget whose category matches case-insensitively and whose
`is_active` flag is set; `None` when the scan finds nothing. -/
def get_budget_by_category : List Budget → Str → Option Budget
  | [], _ => none
  | b :: rest, category =>
      if strToLower b.category == strToLower category && b.is_active then
        some b
      else get_budget_by_category rest category

instance {ε α : Type} [DecidableEq ε] [DecidableEq α] :
    DecidableEq (Except ε α) := fun x y =>
  match x, y with
  | .ok a, .ok b =>
      if h : a = b then .isTrue (by rw [h]) else .isFalse (by simp [h])
  | .error a, .error b =>
      if h : a = b then .isTrue (by rw [h]) else .isFalse (by simp [h])
  | .ok _, .error _ => .isFalse (by simp)
  | .error _, .ok _ => .isFalse (by simp)

example :
    Expense.make "t".toList "g".toList "  Lunch ".toList " Food".toList 10 none
      = .ok { name := "Lunch".toList, category := "food".toList, amount := 10,
              created_date := "t".toList, expense_id := "g".toList } := by
  decide

example :
    Budget.make "t".toList "g".toList "Food".toList 500 "Monthly".toList
        (some "b1".toList) true
      = .ok { category := "food".toList, amount := 500, period := .monthly,
              created_date := "t".toList, budget_id := "b1".toList,
              is_active := true } := by
  decide


/-! ### Helper lemmas -/

/-- A concrete budget used by witnesses: the spec's food/500 example with a
selectable period. -/
def sampleBudget (p : BudgetPeriod) : Budget :=
  { category := "food".toList, amount := 500, period := p,
    created_date := "2024-01-01 10:00:00".toList,
    budget_id := "budget_1".toList, is_active := true }

lemma daysBeforeMonthAux_succ (leap : Bool) (m : ℕ) :
    daysBeforeMonthAux leap (m + 1)
      = daysBeforeMonthAux leap m + daysInMonthAux leap m := rfl

lemma daysBeforeMonthAux_one (leap : Bool) : daysBeforeMonthAux leap 1 = 0 :=
  rfl

lemma daysBeforeMonthAux_true_twelve : daysBeforeMonthAux true 12 = 335 := by
  decide

lemma daysBeforeMonthAux_false_twelve : daysBeforeMonthAux false 12 = 334 := by
  decide

set_option maxHeartbeats 1000000 in
/-- Day count of the years before `y + 1` splits off the length of year `y`. -/
lemma daysBeforeYear_succ (y : ℕ) (hy : 1 ≤ y) :
    daysBeforeYear (y + 1) = daysBeforeYear y + daysInYear y := by
  by_cases h : isLeapYear y
  · have h' : y % 4 = 0 ∧ (y % 100 ≠ 0 ∨ y % 400 = 0) := h
    simp only [daysInYear, if_pos h, daysBeforeYear, Nat.add_sub_cancel]
    omega
  · have h' : ¬(y % 4 = 0 ∧ (y % 100 ≠ 0 ∨ y % 400 = 0)) := h
    simp only [daysInYear, if_neg h, daysBeforeYear, Nat.add_sub_cancel]
    omega

/-- December 31 is the last day of the year. -/
lemma dayOfYear_dec31 (y : ℕ) :
    dayOfYear y 12 31 = daysInYear y := by
  unfold dayOfYear daysBeforeMonth daysInYear
  by_cases h : isLeapYear y
  · have hd : decide (isLeapYear y) = true := by simp [h]
    rw [hd, if_pos h, daysBeforeMonthAux_true_twelve]
  · have hd : decide (isLeapYear y) = false := by simp [h]
    rw [hd, if_neg h, daysBeforeMonthAux_false_twelve]

/-- January 1 of the next year is the day after the last day of year `y`. -/
lemma toOrdinal_jan1_succ (y : ℕ) (hy : 1 ≤ y) :
    toOrdinal (y + 1) 1 1 = daysBeforeYear y + daysInYear y + 1 := by
  unfold toOrdinal dayOfYear daysBeforeMonth
  rw [daysBeforeMonthAux_one, daysBeforeYear_succ y hy]

/-- `daysBeforeMonth` counts December's length on top of the first eleven
months, totalling the year's length. -/
lemma daysBeforeMonth_twelve_add (y : ℕ) :
    daysBeforeMonth y 12 + 31 = daysInYear y := by
  unfold daysBeforeMonth daysInYear
  by_cases h : isLeapYear y
  · rw [show decide (isLeapYear y) = true by simp [h],
      daysBeforeMonthAux_true_twelve, if_pos h]
  · rw [show decide (isLeapYear y) = false by simp [h],
      daysBeforeMonthAux_false_twelve, if_neg h]

lemma daysInMonth_twelve (y : ℕ) : daysInMonth y 12 = 31 := rfl

/-- C4: on a valid current date `(y, m, d)`,
`get_remaining_days_in_period` returns 1 for period daily; `7 - w` where
`w` is the ISO weekday index (Monday = 0) for weekly; the number of days
up to and including the last calendar day of the month
(`daysInMonth y m - d + 1`, so the last day gives 1 and the first day the
month's calendar length, 29 in a leap-year February) for monthly,
December rolling over to January; and the number of days up to and
including December 31 (`dayOfYear y 12 31 - dayOfYear y m d + 1`) for
yearly. -/
theorem get_remaining_days_in_period_spec (b : Budget) (y m d : ℕ)
    (hy : 1 ≤ y) (hm1 : 1 ≤ m) (hm2 : m ≤ 12) (_hd1 : 1 ≤ d)
    (_hd2 : d ≤ daysInMonth y m) :
    (b.period = .daily → b.get_remaining_days_in_period y m d = 1)
    ∧ (b.period = .weekly →
        b.get_remaining_days_in_period y m d = 7 - (pyWeekday y m d : ℤ))
    ∧ (b.period = .monthly →
        b.get_remaining_days_in_period y m d = (daysInMonth y m : ℤ) - d + 1)
    ∧ (b.period = .yearly →
        b.get_remaining_days_in_period y m d
          = (dayOfYear y 12 31 : ℤ) - (dayOfYear y m d : ℤ) + 1) := by
  refine ⟨fun hp => ?_, fun hp => ?_, fun hp => ?_, fun hp => ?_⟩ <;>
    simp only [Budget.get_remaining_days_in_period, hp]
  · by_cases hm12 : m = 12
    · subst hm12
      rw [if_pos rfl, toOrdinal_jan1_succ y hy, daysInMonth_twelve]
      have hcur : toOrdinal y 12 d
          = daysBeforeYear y + daysBeforeMonth y 12 + d := by
        unfold toOrdinal dayOfYear; omega
      have hbm := daysBeforeMonth_twelve_add y
      rw [hcur]
      push_cast
      omega
    · rw [if_neg hm12]
      have hnext : toOrdinal y (m + 1) 1
          = daysBeforeYear y + daysBeforeMonth y m + daysInMonth y m + 1 := by
        unfold toOrdinal dayOfYear daysBeforeMonth daysInMonth
        rw [daysBeforeMonthAux_succ]
        omega
      have hcur : toOrdinal y m d
          = daysBeforeYear y + daysBeforeMonth y m + d := by
        unfold toOrdinal dayOfYear; omega
      rw [hnext, hcur]
      push_cast
      omega
  · rw [toOrdinal_jan1_succ y hy, dayOfYear_dec31]
    have hcur : toOrdinal y m d = daysBeforeYear y + dayOfYear y m d := rfl
    rw [hcur]
    push_cast
    omega

/-- Witness for C4: concrete evaluations — monthly on 2024-02-01 (leap
February) gives 29, monthly on 2024-01-31 (last day of a 31-day month)
gives 1, monthly on 2023-12-15 rolls December over to January, yearly on
2024-12-31 gives 1, weekly on Monday 2024-10-07 gives 7. -/
theorem get_remaining_days_in_period_spec_witness :
    (sampleBudget .monthly).get_remaining_days_in_period 2024 2 1 = 29
    ∧ (sampleBudget .monthly).get_remaining_days_in_period 2024 1 31 = 1
    ∧ (sampleBudget .monthly).get_remaining_days_in_period 2023 12 15 = 17
    ∧ (sampleBudget .yearly).get_remaining_days_in_period 2024 12 31 = 1
    ∧ (sampleBudget .weekly).get_remaining_days_in_period 2024 10 7 = 7 := by
  refine ⟨?_, ?_, ?_, ?_, ?_⟩
  · rw [(get_remaining_days_in_period_spec (sampleBudget .monthly) 2024 2 1
      (by norm_num) (by norm_num) (by norm_num) (by norm_num)
      (by decide)).2.2.1 rfl]
    decide
  · rw [(get_remaining_days_in_period_spec (sampleBudget .monthly) 2024 1 31
      (by norm_num) (by norm_num) (by norm_num) (by norm_num)
      (by decide)).2.2.1 rfl]
    decide
  · rw [(get_remaining_days_in_period_spec (sampleBudget .monthly) 2023 12 15
      (by norm_num) (by norm_num) (by norm_num) (by norm_num)
      (by decide)).2.2.1 rfl]
    decide
  · rw [(get_remaining_days_in_period_spec (sampleBudget .yearly) 2024 12 31
      (by norm_num) (by norm_num) (by norm_num) (by norm_num)
      (by decide)).2.2.2 rfl]
    decide
  · rw [(get_remaining_days_in_period_spec (sampleBudget .weekly) 2024 10 7
      (by norm_num) (by norm_num) (by norm_num) (by norm_num)
      (by decide)).2.1 rfl]
    decide

/-- Lower-casing fixes the canonical period tokens. -/
lemma strToLower_period_value (p : BudgetPeriod) :
    strToLower p.value = p.value := by
  cases p <;> decide

/-- Enum lookup succeeds on each member's own value. -/
lemma parseBudgetPeriod_value (p : BudgetPeriod) :
    parseBudgetPeriod p.value = some p := by
  cases p <;> decide

/-- The invariant established by `Expense.__init__`: positive amount,
trimmed name, trimmed lower-cased category, non-empty identifier. -/
def ExpenseValid (e : Expense) : Prop :=
  0 < e.amount ∧ trimStr e.name = e.name
    ∧ strToLower (trimStr e.category) = e.category ∧ e.expense_id ≠ []

/-- The invariant established by `Budget.__init__`: positive amount,
trimmed lower-cased category, non-empty identifier (the period field is
the enum, hence always canonical). -/
def BudgetValid (b : Budget) : Prop :=
  0 < b.amount ∧ strToLower (trimStr b.category) = b.category
    ∧ b.budget_id ≠ []

/-- C3: for a valid Expense and a valid Budget, deserialization of the
serialized record succeeds and returns the entity itself — so
`Serialize (Deserialize (Serialize x)) = Serialize x`, and identifier,
`created_date` (and for Budget the period and active flag) are preserved
exactly. -/
theorem entity_serialize_roundtrip (now gen : Str) (e : Expense) (b : Budget)
    (he : ExpenseValid e) (hb : BudgetValid b) :
    Expense.from_dict now gen e.to_dict = .ok e
    ∧ (Expense.from_dict now gen e.to_dict).map Expense.to_dict
        = .ok e.to_dict
    ∧ Budget.from_dict now gen b.to_dict = .ok b
    ∧ (Budget.from_dict now gen b.to_dict).map Budget.to_dict
        = .ok b.to_dict := by
  obtain ⟨hea, hen, hec, heid⟩ := he
  obtain ⟨hba, hbc, hbid⟩ := hb
  have h1 : Expense.from_dict now gen e.to_dict = .ok e := by
    obtain ⟨n, c, a, cd, eid⟩ := e
    simp only [Expense.from_dict, Expense.to_dict, Expense.make] at *
    rw [if_neg (not_le.mpr hea)]
    simp only [Except.map, resolveId, if_neg heid]
    rw [hen, hec]
  have h3 : Budget.from_dict now gen b.to_dict = .ok b := by
    obtain ⟨c, a, p, cd, bid, act⟩ := b
    simp only [Budget.from_dict, Budget.to_dict, Budget.make] at *
    rw [if_neg (not_le.mpr hba), strToLower_period_value,
      parseBudgetPeriod_value]
    simp only [Except.map, resolveId, if_neg hbid]
    rw [hbc]
  exact ⟨h1, by rw [h1]; rfl, h3, by rw [h3]; rfl⟩

/-- Witness for C3: the round trip evaluated on a concrete valid expense
and budget. -/
theorem entity_serialize_roundtrip_witness :
    Expense.from_dict "now".toList "gen".toList
        (Expense.to_dict
          { name := "lunch".toList, category := "food".toList, amount := 10,
            created_date := "2024-01-01 10:00:00".toList,
            expense_id := "exp_1".toList })
      = .ok { name := "lunch".toList, category := "food".toList, amount := 10,
              created_date := "2024-01-01 10:00:00".toList,
              expense_id := "exp_1".toList }
    ∧ Budget.from_dict "now".toList "gen".toList
        (Budget.to_dict (sampleBudget .monthly)) = .ok (sampleBudget .monthly) := by
  have h := entity_serialize_roundtrip "now".toList "gen".toList
    { name := "lunch".toList, category := "food".toList, amount := 10,
      created_date := "2024-01-01 10:00:00".toList,
      expense_id := "exp_1".toList }
    (sampleBudget .monthly)
    ⟨by decide, by decide, by decide, by decide⟩
    ⟨by decide, by decide, by decide⟩
  exact ⟨h.1, h.2.2.1⟩

/-- C5: with a positive amount, Budget construction succeeds exactly when
the lower-cased period token is one of daily/weekly/monthly/yearly, and
the stored period's canonical value is that lower-cased token; any other
token is rejected with the invalid-period error. -/
theorem budget_make_period_validation (now gen cat s : Str) (amount : ℚ)
    (ha : 0 < amount) :
    ((strToLower s = "daily".toList ∨ strToLower s = "weekly".toList
        ∨ strToLower s = "monthly".toList ∨ strToLower s = "yearly".toList) →
      ∃ b, Budget.make now gen cat amount s none true = .ok b
        ∧ b.period.value = strToLower s)
    ∧ ((strToLower s ≠ "daily".toList ∧ strToLower s ≠ "weekly".toList
        ∧ strToLower s ≠ "monthly".toList ∧ strToLower s ≠ "yearly".toList) →
      Budget.make now gen cat amount s none true
        = .error (.invalidPeriod s)) := by
  constructor
  · have mk : ∀ p : BudgetPeriod, strToLower s = p.value →
        ∃ b, Budget.make now gen cat amount s none true = .ok b
          ∧ b.period.value = strToLower s := by
      intro p hp
      refine ⟨{ category := strToLower (trimStr cat), amount := amount,
                period := p, created_date := now, budget_id := gen,
                is_active := true }, ?_, hp.symm⟩
      unfold Budget.make
      rw [if_neg (not_le.mpr ha), hp, parseBudgetPeriod_value]
      rfl
    rintro (h | h | h | h)
    · exact mk .daily h
    · exact mk .weekly h
    · exact mk .monthly h
    · exact mk .yearly h
  · rintro ⟨h1, h2, h3, h4⟩
    unfold Budget.make
    rw [if_neg (not_le.mpr ha)]
    unfold parseBudgetPeriod
    rw [if_neg h1, if_neg h2, if_neg h3, if_neg h4]

/-- Witness for C5: `"Monthly"` (mixed case) is accepted and normalized,
`"fortnightly"` is rejected with the invalid-period error. -/
theorem budget_make_period_validation_witness :
    (∃ b, Budget.make "t".toList "g".toList "food".toList 500
        "Monthly".toList none true = .ok b
      ∧ b.period.value = strToLower "Monthly".toList)
    ∧ Budget.make "t".toList "g".toList "food".toList 500
        "fortnightly".toList none true
      = .error (.invalidPeriod "fortnightly".toList) := by
  constructor
  · exact (budget_make_period_validation "t".toList "g".toList "food".toList
      "Monthly".toList 500 (by norm_num)).1
      (Or.inr (Or.inr (Or.inl (by decide))))
  · exact (budget_make_period_validation "t".toList "g".toList "food".toList
      "fortnightly".toList 500 (by norm_num)).2
      ⟨by decide, by decide, by decide, by decide⟩

/-- C6: a non-positive amount makes every construction path fail with the
"amount must be positive" validation error: the Expense constructor, the
Budget constructor (regardless of the period token), and both
deserializers, which re-validate through the constructors. -/
theorem nonpositive_amount_rejected (now gen n c cat p : Str) (amount : ℚ)
    (eid bid : Option Str) (act : Bool) (ed : ExpenseDict) (bd : BudgetDict)
    (ha : amount ≤ 0) (hed : ed.amount ≤ 0) (hbd : bd.amount ≤ 0) :
    Expense.make now gen n c amount eid
      = .error (.validation "Expense amount must be positive".toList)
    ∧ Budget.make now gen cat amount p bid act
      = .error (.validation "Budget amount must be positive".toList)
    ∧ Expense.from_dict now gen ed
      = .error (.validation "Expense amount must be positive".toList)
    ∧ Budget.from_dict now gen bd
      = .error (.validation "Budget amount must be positive".toList) := by
  refine ⟨?_, ?_, ?_, ?_⟩
  · unfold Expense.make
    rw [if_pos ha]
  · unfold Budget.make
    rw [if_pos ha]
  · unfold Expense.from_dict Expense.make
    rw [if_pos hed]
    rfl
  · unfold Budget.from_dict Budget.make
    rw [if_pos hbd]
    rfl

/-- Witness for C6: amount `-1` (and amount `0` in the serialized records)
is rejected everywhere. -/
theorem nonpositive_amount_rejected_witness :
    Expense.make "t".toList "g".toList "lunch".toList "food".toList (-1) none
      = .error (.validation "Expense amount must be positive".toList)
    ∧ Budget.make "t".toList "g".toList "food".toList (-1) "monthly".toList
        none true
      = .error (.validation "Budget amount must be positive".toList)
    ∧ Expense.from_dict "t".toList "g".toList
        { id := "e1".toList, name := "lunch".toList,
          category := "food".toList, amount := 0,
          created_date := "d".toList }
      = .error (.validation "Expense amount must be positive".toList)
    ∧ Budget.from_dict "t".toList "g".toList
        { id := "b1".toList, category := "food".toList, amount := 0,
          period := "monthly".toList, created_date := "d".toList,
          is_active := true }
      = .error (.validation "Budget amount must be positive".toList) :=
  nonpositive_amount_rejected "t".toList "g".toList "lunch".toList
    "food".toList "food".toList "monthly".toList (-1) none none true
    { id := "e1".toList, name := "lunch".toList, category := "food".toList,
      amount := 0, created_date := "d".toList }
    { id := "b1".toList, category := "food".toList, amount := 0,
      period := "monthly".toList, created_date := "d".toList,
      is_active := true }
    (by norm_num) (by norm_num) (by norm_num)

/-- C7: for a budget with positive amount (the constructor's invariant),
usage percentage follows the `0 / min(100, 100·spent/amount)` formula, is
monotonically non-decreasing in the spent amount, and equals exactly 100
whenever spending reaches or exceeds the amount. -/
theorem calculate_usage_percentage_spec (b : Budget) (hb : 0 < b.amount) :
    (∀ spent, b.calculate_usage_percentage spent
        = if b.amount = 0 then 0 else min 100 (spent / b.amount * 100))
    ∧ (∀ s1 s2, s1 ≤ s2 →
        b.calculate_usage_percentage s1 ≤ b.calculate_usage_percentage s2)
    ∧ (∀ spent, b.amount ≤ spent →
        b.calculate_usage_percentage spent = 100) := by
  refine ⟨fun _ => rfl, ?_, ?_⟩
  · intro s1 s2 h
    unfold Budget.calculate_usage_percentage
    rw [if_neg (ne_of_gt hb), if_neg (ne_of_gt hb)]
    have hdiv : s1 / b.amount ≤ s2 / b.amount := by gcongr
    have : s1 / b.amount * 100 ≤ s2 / b.amount * 100 := by
      nlinarith
    exact min_le_min le_rfl this
  · intro spent h
    unfold Budget.calculate_usage_percentage
    rw [if_neg (ne_of_gt hb)]
    have h1 : (1 : ℚ) ≤ spent / b.amount := (one_le_div hb).mpr h
    have h2 : (100 : ℚ) ≤ spent / b.amount * 100 := by nlinarith
    exact min_eq_left h2

/-- Witness for C7: the spec's example — food budget of 500 with 600 spent
caps the usage percentage at exactly 100. -/
theorem calculate_usage_percentage_spec_witness :
    (sampleBudget .monthly).calculate_usage_percentage 600 = 100 :=
  (calculate_usage_percentage_spec (sampleBudget .monthly)
    (by norm_num [sampleBudget])).2.2 600 (by norm_num [sampleBudget])

/-- C8: the daily-equivalent amount is the amount itself for a daily
budget, amount/7 for weekly, amount/30 for monthly and amount/365 for
yearly; in particular a weekly amount of 700 gives exactly 100. -/
theorem get_daily_amount_spec (b : Budget) :
    (b.period = .daily → b.get_daily_amount = b.amount)
    ∧ (b.period = .weekly → b.get_daily_amount = b.amount / 7)
    ∧ (b.period = .monthly → b.get_daily_amount = b.amount / 30)
    ∧ (b.period = .yearly → b.get_daily_amount = b.amount / 365)
    ∧ (b.period = .weekly → b.amount = 700 → b.get_daily_amount = 100) := by
  refine ⟨fun hp => ?_, fun hp => ?_, fun hp => ?_, fun hp => ?_,
    fun hp ha => ?_⟩ <;>
    simp only [Budget.get_daily_amount, hp]
  rw [ha]
  norm_num

/-- Witness for C8: a weekly budget of 700 has daily equivalent exactly
100. -/
theorem get_daily_amount_spec_witness :
    Budget.get_daily_amount
      { category := "food".toList, amount := 700, period := .weekly,
        created_date := "d".toList, budget_id := "b7".toList,
        is_active := true } = 100 :=
  (get_daily_amount_spec _).2.2.2.2 rfl rfl

/-- C1 (documents the divergence): at the spec's own exceeded example —
budget amount 500, spent 600 — `get_status_message` does return the
exceeded tier, but the overage it carries is `abs(max(0, 500 - 600)) = 0`,
while the actual overage `spent - amount` is 100: the clamping inside
`calculate_remaining_budget` makes the `abs(remaining)` in the exceeded
message constantly zero. -/
theorem get_status_message_exceeded_zero_overage :
    (sampleBudget .monthly).get_status_message 600 = .exceeded 0
    ∧ (sampleBudget .monthly).amount = 500
    ∧ (600 : ℚ) - (sampleBudget .monthly).amount = 100 := by
  refine ⟨?_, by norm_num [sampleBudget], by norm_num [sampleBudget]⟩
  simp only [sampleBudget, Budget.get_status_message,
    Budget.calculate_usage_percentage, Budget.calculate_remaining_budget]
  norm_num [min_def, max_def]

/-- C2 counterexample: constructing an Expense whose name and category are
empty after trimming does NOT fail — it succeeds and stores the empty
strings. -/
theorem expense_empty_fields_accepted :
    Expense.make "2024-01-01 10:00:00".toList "exp_gen".toList
        "   ".toList "".toList 5 none
      = .ok { name := [], category := [], amount := 5,
              created_date := "2024-01-01 10:00:00".toList,
              expense_id := "exp_gen".toList } := by
  decide

/-- C2 amended: `Expense.__init__` performs no emptiness validation on
name or category: for every name and category (empty-after-trim ones
included), construction succeeds whenever the amount is positive, storing
the trimmed name and the trimmed lower-cased category; only a
non-positive amount raises ValidationError. -/
theorem expense_make_accepts_empty_fields (now gen n c : Str) (amount : ℚ)
    (eid : Option Str) (ha : 0 < amount) :
    Expense.make now gen n c amount eid
      = .ok { name := trimStr n, category := strToLower (trimStr c),
              amount := amount, created_date := now,
              expense_id := resolveId eid gen } := by
  unfold Expense.make
  rw [if_neg (not_le.mpr ha)]

/-- Witness for the amended C2: blank name and empty category are
accepted at amount 5. -/
theorem expense_make_accepts_empty_fields_witness :
    Expense.make "t".toList "g".toList "   ".toList "".toList 5 none
      = .ok { name := [], category := [], amount := 5,
              created_date := "t".toList, expense_id := "g".toList } := by
  rw [expense_make_accepts_empty_fields "t".toList "g".toList "   ".toList
    "".toList 5 none (by norm_num)]
  decide

/-- C9: the lookup returns the first stored budget whose category matches
case-insensitively and whose active flag is set — it coincides with
`List.find?` over that predicate, returns `none` exactly when no stored
budget matches, and on any storage split `l1 ++ b :: l2` where nothing in
`l1` matches and `b` matches, it returns `b`. -/
theorem get_budget_by_category_spec (bs : List Budget) (c : Str) :
    get_budget_by_category bs c
      = bs.find? (fun b => strToLower b.category == strToLower c
          && b.is_active)
    ∧ (get_budget_by_category bs c = none ↔
        ∀ b ∈ bs, ¬(strToLower b.category = strToLower c
          ∧ b.is_active = true))
    ∧ (∀ l1 b l2, bs = l1 ++ b :: l2 →
        (∀ x ∈ l1, ¬(strToLower x.category = strToLower c
          ∧ x.is_active = true)) →
        strToLower b.category = strToLower c → b.is_active = true →
        get_budget_by_category bs c = some b) := by
  have hfind : ∀ l : List Budget, get_budget_by_category l c
      = l.find? (fun b => strToLower b.category == strToLower c
          && b.is_active) := by
    intro l
    induction l with
    | nil => rfl
    | cons b rest ih =>
        cases hc : (strToLower b.category == strToLower c && b.is_active) with
        | true => simp [get_budget_by_category, List.find?, hc]
        | false => simp [get_budget_by_category, List.find?, hc, ih]
  refine ⟨hfind bs, ?_, ?_⟩
  · rw [hfind bs, List.find?_eq_none]
    constructor
    · intro h b hb
      have := h b hb
      simpa [Bool.and_eq_true, beq_iff_eq] using this
    · intro h b hb
      have := h b hb
      simpa [Bool.and_eq_true, beq_iff_eq] using this
  · intro l1 b l2 heq hnone hcat hact
    subst heq
    induction l1 with
    | nil =>
        have hc : (strToLower b.category == strToLower c && b.is_active)
            = true := by
          rw [Bool.and_eq_true, beq_iff_eq]
          exact ⟨hcat, hact⟩
        simp [get_budget_by_category, hc]
    | cons x xs ih =>
        have hx := hnone x (by simp)
        have hxf : (strToLower x.category == strToLower c && x.is_active)
            = false := by
          cases hcc : (strToLower x.category == strToLower c
              && x.is_active) with
          | false => rfl
          | true =>
              exfalso
              apply hx
              rw [Bool.and_eq_true, beq_iff_eq] at hcc
              exact hcc
        simp only [List.cons_append, get_budget_by_category, hxf,
          Bool.false_eq_true, if_false]
        exact ih (fun z hz => hnone z (by simp [hz]))

/-- Witness for C9: with an inactive matching budget first, then two
active matching budgets, the lookup returns the first active one; on a
list with only the inactive budget it returns `none`. -/
theorem get_budget_by_category_spec_witness :
    get_budget_by_category
        [{ sampleBudget .monthly with is_active := false },
         sampleBudget .monthly,
         { sampleBudget .weekly with budget_id := "budget_2".toList }]
        "Food".toList
      = some (sampleBudget .monthly)
    ∧ get_budget_by_category
        [{ sampleBudget .monthly with is_active := false }] "Food".toList
      = none := by
  constructor
  · exact (get_budget_by_category_spec
      [{ sampleBudget .monthly with is_active := false },
       sampleBudget .monthly,
       { sampleBudget .weekly with budget_id := "budget_2".toList }]
      "Food".toList).2.2
      [{ sampleBudget .monthly with is_active := false }]
      (sampleBudget .monthly)
      [{ sampleBudget .weekly with budget_id := "budget_2".toList }]
      rfl (by decide) (by decide) (by decide)
  · exact (get_budget_by_category_spec
      [{ sampleBudget .monthly with is_active := false }]
      "Food".toList).2.1.mpr (by decide)

/-- C10: passing an empty-string category to `get_total_spending` is the
same as passing no category at all — Python's truthiness test skips the
filter — so the result is the sum over every stored expense; filtering by
the empty category instead would produce an empty selection (sum 0)
whenever every stored expense has a non-empty category. -/
theorem get_total_spending_empty_filter (expenses : List Expense) :
    get_total_spending expenses (some []) = get_total_spending expenses none
    ∧ get_total_spending expenses (some [])
        = (expenses.map Expense.amount).sum
    ∧ ((∀ e ∈ expenses, e.category ≠ []) →
        ((get_expenses_by_category expenses []).map Expense.amount).sum
          = 0) := by
  refine ⟨rfl, rfl, ?_⟩
  intro h
  have hnil : get_expenses_by_category expenses [] = [] := by
    rw [get_expenses_by_category, List.filter_eq_nil_iff]
    intro e he hbeq
    have hlow : strToLower e.category = strToLower [] := beq_iff_eq.mp hbeq
    have : e.category = [] := by
      have := hlow
      simpa [strToLower, List.map_eq_nil_iff] using this
    exact h e he this
  rw [hnil]
  rfl

/-- Witness for C10: two expenses with non-empty categories — the
empty-string query returns their full total 15, not the 0 an
empty-category filter would produce. -/
theorem get_total_spending_empty_filter_witness :
    get_total_spending
        [{ name := "a".toList, category := "food".toList, amount := 10,
           created_date := "d".toList, expense_id := "e1".toList },
         { name := "b".toList, category := "transport".toList, amount := 5,
           created_date := "d".toList, expense_id := "e2".toList }]
        (some []) = 15
    ∧ ((get_expenses_by_category
        [{ name := "a".toList, category := "food".toList, amount := 10,
           created_date := "d".toList, expense_id := "e1".toList },
         { name := "b".toList, category := "transport".toList, amount := 5,
           created_date := "d".toList, expense_id := "e2".toList }]
        []).map Expense.amount).sum = 0 := by
  constructor
  · rw [(get_total_spending_empty_filter
      [{ name := "a".toList, category := "food".toList, amount := 10,
         created_date := "d".toList, expense_id := "e1".toList },
       { name := "b".toList, category := "transport".toList, amount := 5,
         created_date := "d".toList, expense_id := "e2".toList }]).2.1]
    norm_num
  · exact (get_total_spending_empty_filter
      [{ name := "a".toList, category := "food".toList, amount := 10,
         created_date := "d".toList, expense_id := "e1".toList },
       { name := "b".toList, category := "transport".toList, amount := 5,
         created_date := "d".toList, expense_id := "e2".toList }]).2.2
      (by decide)
